import Mathlib

/-!
Verification development for `crystals/atom.py`.

The Python source is shallowly embedded: pure functions become Lean
functions, fallible code returns `Except String`, machine floats are
modelled by exact rationals, and the mutable `ElectronicStructure`
mapping is modelled by explicit state passing on its underlying
association list.  Definitions follow the source line by line; parts of
the repository that are referenced but whose files are not available
(`affine.py`, `lattice.py`, `atom_data.py`) are modelled from the
specification and marked as such in their doc comments.
-/

namespace crystals

/-- Enumeration of electronic subshells, mirroring the `Subshell` enum of
the source (`class Subshell(Enum)`). -/
inductive Subshell where
  | one_s
  | two_s
  | two_p
  | three_s
  | three_p
  | four_s
  | three_d
  | four_p
  | five_s
  | four_d
  | five_p
  | six_s
  | four_f
  | five_d
  | six_p
  | seven_s
  | five_f
  | six_d
  | seven_p
deriving DecidableEq

/-- The declaration order of the `Subshell` enum in the source: Madelung
filling order.  Python iterates `for shell in Subshell:` in exactly this
sequence. -/
def Subshell.all : List Subshell :=
  [.one_s, .two_s, .two_p, .three_s, .three_p, .four_s, .three_d, .four_p,
   .five_s, .four_d, .five_p, .six_s, .four_f, .five_d, .six_p, .seven_s,
   .five_f, .six_d, .seven_p]

/-- The string value attached to each enum member (`one_s = "1s"`, ...). -/
def Subshell.value : Subshell → String
  | .one_s => "1s"
  | .two_s => "2s"
  | .two_p => "2p"
  | .three_s => "3s"
  | .three_p => "3p"
  | .four_s => "4s"
  | .three_d => "3d"
  | .four_p => "4p"
  | .five_s => "5s"
  | .four_d => "4d"
  | .five_p => "5p"
  | .six_s => "6s"
  | .four_f => "4f"
  | .five_d => "5d"
  | .six_p => "6p"
  | .seven_s => "7s"
  | .five_f => "5f"
  | .six_d => "6d"
  | .seven_p => "7p"

/-- The `maxima` dictionary of `Subshell.maximum_electrons`, keyed by the
orbital-type letter (the last character of the shell's value). -/
def orbital_maxima (c : Char) : Option Nat :=
  if c = 's' then some 2
  else if c = 'p' then some 6
  else if c = 'd' then some 10
  else if c = 'f' then some 14
  else none

/-- `Subshell.maximum_electrons`: capacity of a subshell, looked up from the
last letter of its value.  Every enum member's value ends in s/p/d/f, so the
lookup never takes the default. -/
def Subshell.maximum_electrons (s : Subshell) : Nat :=
  (orbital_maxima s.value.back).getD 0

/-- `Subshell(key)` normalization: a `Subshell` passes through, a string is
looked up among the enum values (`ValueError` otherwise). -/
def Subshell.ofKey : Subshell ⊕ String → Except String Subshell
  | Sum.inl s => Except.ok s
  | Sum.inr v =>
    match Subshell.all.find? (fun s => s.value = v) with
    | some s => Except.ok s
    | none => Except.error (v ++ " is not a valid Subshell")

/-- State of an `ElectronicStructure` (an `OrderedDict` subclass): the
ordered association list of (subshell, occupancy) entries it holds. -/
abbrev ElectronicStructure := List (Subshell × Int)

/-- `ElectronicStructure.__setitem__` from the source: normalizes the key,
checks the occupancy against the subshell capacity, and — exactly as in the
source override — returns the state unchanged on success, because the
override never writes the value through to the underlying mapping. -/
def ElectronicStructure.setitem (es : ElectronicStructure)
    (key : Subshell ⊕ String) (value : Int) : Except String ElectronicStructure :=
  match Subshell.ofKey key with
  | Except.error e => Except.error e
  | Except.ok shell =>
    if value > (Subshell.maximum_electrons shell : Int) then
      Except.error ("There cannot be " ++ toString value ++ " electrons in subshell " ++ shell.value)
    else
      Except.ok es

/-- Dictionary lookup on an `ElectronicStructure` (`__getitem__` is not
overridden, so it is the plain `OrderedDict` lookup; `KeyError` becomes
`none`). -/
def ElectronicStructure.getitem (es : ElectronicStructure) (s : Subshell) : Option Int :=
  (es.find? (fun p => p.1 = s)).map Prod.snd

/-- Lookup in a Python dict built by comprehension: a later binding of the
same key overwrites an earlier one. -/
def dictLookup (l : List (Subshell × Int)) (s : Subshell) : Option Int :=
  l.foldl (fun acc p => if p.1 = s then some p.2 else acc) none

/-- `ElectronicStructure.__init__`: normalizes all keys to `Subshell`, then
walks the canonical `Subshell` order and assigns the supplied entries via
`self[shell] = shells[shell]`, i.e. through the overridden `setitem`. -/
def ElectronicStructure.init (shells : List ((Subshell ⊕ String) × Int)) :
    Except String ElectronicStructure := do
  let norm ← shells.mapM (fun p => do
    let s ← Subshell.ofKey p.1
    pure (s, p.2))
  Subshell.all.foldlM (fun es sh =>
    match dictLookup norm sh with
    | none => pure es
    | some v => ElectronicStructure.setitem es (Sum.inl sh) v) ([] : ElectronicStructure)

/-- The `superscript_map` table of the source, as (digit, superscript)
pairs. -/
def superscript_map : List (Char × Char) :=
  [('0', '⁰'), ('1', '¹'), ('2', '²'), ('3', '³'), ('4', '⁴'),
   ('5', '⁵'), ('6', '⁶'), ('7', '⁷'), ('8', '⁸'), ('9', '⁹')]

/-- `str.translate(superscript_trans)`: digits are replaced by their
superscript form, any other character is left unchanged. -/
def superscript_translate (s : String) : String :=
  String.mk (s.data.map (fun c =>
    (((superscript_map.find? (fun p => p.1 = c)).map Prod.snd).getD c)))

/-- `ElectronicStructure.__str__`: concatenates, in stored order, each
shell's value followed by its occupancy rendered in superscript digits. -/
def ElectronicStructure.str (es : ElectronicStructure) : String :=
  es.foldl (fun acc p => acc ++ p.1.value ++ superscript_translate (toString p.2)) ""

/-- Modelled from the spec: the periodic-table data source's known-valid
symbol set (`chemical_symbols` of `atom_data.py`, which is not among the
provided sources) — the standard element symbols in atomic-number order. -/
def chemical_symbols : List String :=
  ["H", "He", "Li", "Be", "B", "C", "N", "O", "F", "Ne",
   "Na", "Mg", "Al", "Si", "P", "S", "Cl", "Ar", "K", "Ca",
   "Sc", "Ti", "V", "Cr", "Mn", "Fe", "Co", "Ni", "Cu", "Zn",
   "Ga", "Ge", "As", "Se", "Br", "Kr", "Rb", "Sr", "Y", "Zr",
   "Nb", "Mo", "Tc", "Ru", "Rh", "Pd", "Ag", "Cd", "In", "Sn",
   "Sb", "Te", "I", "Xe", "Cs", "Ba", "La", "Ce", "Pr", "Nd",
   "Pm", "Sm", "Eu", "Gd", "Tb", "Dy", "Ho", "Er", "Tm", "Yb",
   "Lu", "Hf", "Ta", "W", "Re", "Os", "Ir", "Pt", "Au", "Hg",
   "Tl", "Pb", "Bi", "Po", "At", "Rn", "Fr", "Ra", "Ac", "Th",
   "Pa", "U", "Np", "Pu", "Am", "Cm", "Bk", "Cf", "Es", "Fm",
   "Md", "No", "Lr", "Rf", "Db", "Sg", "Bh", "Hs", "Mt", "Ds",
   "Rg", "Cn", "Nh", "Fl", "Mc", "Lv", "Ts", "Og"]

/-- Helper for Python's `str.title()`: an alphabetic character is
uppercased when the previous character was not alphabetic and lowercased
otherwise; other characters pass through. -/
def titlecaseAux : Bool → List Char → List Char
  | _, [] => []
  | prevAlpha, c :: cs =>
    (if c.isAlpha then (if prevAlpha then c.toLower else c.toUpper) else c)
      :: titlecaseAux c.isAlpha cs

/-- Python's `str.title()` on a string. -/
def titlecase (s : String) : String := String.mk (titlecaseAux false s.data)

/-- Modelled from the spec: the `NUM_TO_ELEM` mapping of `atom_data.py`
(atomic number to symbol; a missing key is an error). -/
def NUM_TO_ELEM (n : Int) : Option String :=
  if n < 1 then none else chemical_symbols.get? (n - 1).toNat

/-- Modelled from the spec: the `ELEM_TO_NUM` mapping of `atom_data.py`
(symbol to atomic number, the inverse direction of `NUM_TO_ELEM`). -/
def ELEM_TO_NUM (s : String) : Nat := chemical_symbols.indexOf s + 1

/-- The membership validation at the end of `Element.__init__`. -/
def Element.validate (s : String) : Except String String :=
  if s ∈ chemical_symbols then Except.ok s
  else Except.error ("Element " ++ s ++ " is not valid.")

/-- `Element.__init__`: an integer is first mapped through `NUM_TO_ELEM`;
the resulting symbol is case-normalized by `str.title()` and validated
against the known-valid symbol set.  The stored normalized symbol is
returned. -/
def Element.init (element : String ⊕ Int) : Except String String :=
  match element with
  | Sum.inl s => Element.validate (titlecase s)
  | Sum.inr n =>
    match NUM_TO_ELEM n with
    | none => Except.error ("KeyError " ++ toString n)
    | some sym => Element.validate (titlecase sym)

/-- The greedy filling loop of `ElectronicStructure.ground_state`: walk the
subshells in canonical order, assign `min(capacity, remaining)` electrons
to each, and break as soon as the remaining count reaches zero. -/
def greedyFill : List Subshell → Nat → List (Subshell × Int)
  | [], _ => []
  | s :: rest, n =>
    let e := min (Subshell.maximum_electrons s) n
    (s, (e : Int)) :: (if n - e = 0 then [] else greedyFill rest (n - e))

/-- `ElectronicStructure.ground_state`: builds the greedy-fill dictionary
for the element's atomic number and hands it to the `ElectronicStructure`
constructor. -/
def ElectronicStructure.ground_state (element : String ⊕ Int) :
    Except String ElectronicStructure := do
  let sym ← Element.init element
  let num_elec := ELEM_TO_NUM sym
  ElectronicStructure.init ((greedyFill Subshell.all num_elec).map (fun p => (Sum.inl p.1, p.2)))

deriving instance DecidableEq for Except

/-- A 3-vector of (exact) coordinates, modelling the numpy shape-(3,)
arrays of the source. -/
structure Vec3 where
  x : ℚ
  y : ℚ
  z : ℚ
deriving DecidableEq

/-- A 3×3 matrix, row major, modelling the numpy shape-(3,3) arrays. -/
structure Mat3 where
  m11 : ℚ
  m12 : ℚ
  m13 : ℚ
  m21 : ℚ
  m22 : ℚ
  m23 : ℚ
  m31 : ℚ
  m32 : ℚ
  m33 : ℚ
deriving DecidableEq

/-- A 4×4 homogeneous matrix, modelling the numpy shape-(4,4) arrays. -/
structure Mat4 where
  a11 : ℚ
  a12 : ℚ
  a13 : ℚ
  a14 : ℚ
  a21 : ℚ
  a22 : ℚ
  a23 : ℚ
  a24 : ℚ
  a31 : ℚ
  a32 : ℚ
  a33 : ℚ
  a34 : ℚ
  a41 : ℚ
  a42 : ℚ
  a43 : ℚ
  a44 : ℚ
deriving DecidableEq

/-- Matrix-vector product for a 3×3 matrix acting on a 3-vector. -/
def mulVec (A : Mat3) (v : Vec3) : Vec3 :=
  ⟨A.m11 * v.x + A.m12 * v.y + A.m13 * v.z,
   A.m21 * v.x + A.m22 * v.y + A.m23 * v.z,
   A.m31 * v.x + A.m32 * v.y + A.m33 * v.z⟩

/-- 3×3 matrix product. -/
def mul3 (A B : Mat3) : Mat3 :=
  ⟨A.m11 * B.m11 + A.m12 * B.m21 + A.m13 * B.m31,
   A.m11 * B.m12 + A.m12 * B.m22 + A.m13 * B.m32,
   A.m11 * B.m13 + A.m12 * B.m23 + A.m13 * B.m33,
   A.m21 * B.m11 + A.m22 * B.m21 + A.m23 * B.m31,
   A.m21 * B.m12 + A.m22 * B.m22 + A.m23 * B.m32,
   A.m21 * B.m13 + A.m22 * B.m23 + A.m23 * B.m33,
   A.m31 * B.m11 + A.m32 * B.m21 + A.m33 * B.m31,
   A.m31 * B.m12 + A.m32 * B.m22 + A.m33 * B.m32,
   A.m31 * B.m13 + A.m32 * B.m23 + A.m33 * B.m33⟩

/-- The 3×3 identity matrix (`np.eye(3)`). -/
def I3 : Mat3 := ⟨1, 0, 0, 0, 1, 0, 0, 0, 1⟩

/-- Determinant of a 3×3 matrix. -/
def det3 (A : Mat3) : ℚ :=
  A.m11 * (A.m22 * A.m33 - A.m23 * A.m32)
    - A.m12 * (A.m21 * A.m33 - A.m23 * A.m31)
    + A.m13 * (A.m21 * A.m32 - A.m22 * A.m31)

/-- Inverse of a 3×3 matrix by the adjugate formula (division by a zero
determinant — the singular-basis error case — yields the junk value of
division by zero). -/
def inv3 (A : Mat3) : Mat3 :=
  let d := det3 A
  ⟨(A.m22 * A.m33 - A.m23 * A.m32) / d,
   (A.m13 * A.m32 - A.m12 * A.m33) / d,
   (A.m12 * A.m23 - A.m13 * A.m22) / d,
   (A.m23 * A.m31 - A.m21 * A.m33) / d,
   (A.m11 * A.m33 - A.m13 * A.m31) / d,
   (A.m13 * A.m21 - A.m11 * A.m23) / d,
   (A.m21 * A.m32 - A.m22 * A.m31) / d,
   (A.m12 * A.m31 - A.m11 * A.m32) / d,
   (A.m11 * A.m22 - A.m12 * A.m21) / d⟩

/-- A transformation matrix argument: either a 3×3 linear matrix or a 4×4
homogeneous matrix, the two shapes accepted by `affine.transform`. -/
inductive AffMat where
  | lin (m : Mat3)
  | hom (m : Mat4)
deriving DecidableEq

/-- Modelled from the spec: `affine.transform(matrix, vector)`
(`affine.py` is not among the provided sources) — a 3×3 matrix multiplies
the vector directly; a 4×4 homogeneous matrix multiplies the vector padded
with a trailing 1 and the first three components are returned. -/
def transform (m : AffMat) (v : Vec3) : Vec3 :=
  match m with
  | AffMat.lin A => mulVec A v
  | AffMat.hom A =>
    ⟨A.a11 * v.x + A.a12 * v.y + A.a13 * v.z + A.a14,
     A.a21 * v.x + A.a22 * v.y + A.a23 * v.z + A.a24,
     A.a31 * v.x + A.a32 * v.y + A.a33 * v.z + A.a34⟩

/-- Modelled from the spec: `affine.change_of_basis(basis1, basis2)`
(`affine.py` is not among the provided sources) — the matrix mapping
`basis1`-coordinates to `basis2`-coordinates, computed via matrix
inversion of the target basis composed with the source basis. -/
def change_of_basis (basis1 basis2 : Mat3) : Mat3 := mul3 (inv3 basis2) basis1

/-- `real_coords(frac_coords, lattice_vectors)` from the source: apply the
change of basis from the lattice basis to the standard basis. -/
def real_coords (frac : Vec3) (lattice_vectors : Mat3) : Vec3 :=
  transform (AffMat.lin (change_of_basis lattice_vectors I3)) frac

/-- `frac_coords(real_coords, lattice_vectors)` from the source: apply the
change of basis from the standard basis to the lattice basis. -/
def frac_coords (real : Vec3) (lattice_vectors : Mat3) : Vec3 :=
  transform (AffMat.lin (change_of_basis I3 lattice_vectors)) real

/-- Modelled from the spec: the external `Lattice` collaborator
(`lattice.py` is not among the provided sources) — it exposes three
lattice vectors (as the rows of a 3×3 matrix) and value equality. -/
structure Lattice where
  lattice_vectors : Mat3
deriving DecidableEq

/-- An `Atom` instance: the fields assigned by `Atom.__init__`. -/
structure Atom where
  element : String
  coords_fractional : Vec3
  lattice : Lattice
  displacement : Vec3
  magmom : ℚ
  occupancy : ℚ
  tag : Option Int
deriving DecidableEq

/-- `Atom.__init__`.  The element argument is validated and normalized by
`Element.__init__`; a missing lattice (and, by Python truthiness, any falsy
one) is replaced by the identity lattice; a missing displacement becomes
the zero vector; `magmom or self.magnetic_moment_ground` stores the
element's ground-state magnetic moment whenever the supplied moment is
`None` or `0.0`.  `ELEM_TO_MAGMOM` of `atom_data.py` is not among the
provided sources, so the ground-state moment table is the parameter
`gm`. -/
def Atom.init (gm : String → ℚ) (element : String ⊕ Int) (coords : Vec3)
    (lattice : Option Lattice) (displacement : Option Vec3) (magmom : Option ℚ)
    (occupancy : ℚ) (tag : Option Int) : Except String Atom :=
  match Element.init element with
  | Except.error e => Except.error e
  | Except.ok sym =>
    Except.ok
      { element := sym
        coords_fractional := coords
        lattice := lattice.getD ⟨I3⟩
        displacement := displacement.getD ⟨0, 0, 0⟩
        magmom :=
          match magmom with
          | none => gm sym
          | some m => if m = 0 then gm sym else m
        occupancy := occupancy
        tag := tag }

/-- `Atom.transform(*matrices)`: folds the transformation matrices over a
copy of the fractional coordinates, then re-constructs an atom of the same
class carrying over element, lattice, displacement, magnetic moment and
occupancy — and no tag. -/
def Atom.transform (gm : String → ℚ) (a : Atom) (matrices : List AffMat) :
    Except String Atom :=
  Atom.init gm (Sum.inl a.element)
    (matrices.foldl (fun v m => crystals.transform m v) a.coords_fractional)
    (some a.lattice) (some a.displacement) (some a.magmom) a.occupancy none

/-- `np.allclose(u, v, atol=1e-3)` componentwise on 3-vectors, with numpy's
default relative tolerance `rtol=1e-5`:
`|u - v| <= atol + rtol * |v|` in every component. -/
def allclose3 (u v : Vec3) : Prop :=
  |u.x - v.x| ≤ 1/1000 + (1/100000) * |v.x| ∧
  |u.y - v.y| ≤ 1/1000 + (1/100000) * |v.y| ∧
  |u.z - v.z| ≤ 1/1000 + (1/100000) * |v.z|

instance (u v : Vec3) : Decidable (allclose3 u v) := by
  unfold allclose3
  infer_instance

/-- `Atom.__eq__`: element equality (from `Element.__eq__`, symbol
equality), identical magnetic moment, fractional coordinates close within
`atol=1e-3`, equal lattice, and displacement close within `atol=1e-3`. -/
def Atom.eq (a b : Atom) : Prop :=
  a.element = b.element ∧ a.magmom = b.magmom ∧
  allclose3 a.coords_fractional b.coords_fractional ∧
  a.lattice = b.lattice ∧ allclose3 a.displacement b.displacement

instance (a b : Atom) : Decidable (Atom.eq a b) := by
  unfold Atom.eq
  infer_instance

/-- `np.round` for a single value: round half to even (banker's
rounding). -/
def roundHalfEven (q : ℚ) : Int :=
  let f := ⌊q⌋
  let r := q - (f : ℚ)
  if r < 1/2 then f
  else if 1/2 < r then f + 1
  else if f % 2 = 0 then f else f + 1

/-- `np.round(q, 3)`: round to three decimal places. -/
def round3 (q : ℚ) : ℚ := (roundHalfEven (q * 1000) : ℚ) / 1000

/-- `np.round(v, 3)` componentwise on a 3-vector. -/
def round3v (v : Vec3) : Vec3 := ⟨round3 v.x, round3 v.y, round3 v.z⟩

/-- `Atom.__hash__`: the tuple that is hashed — the element hash (the
atomic number, per `Element.__hash__`), the magnetic moment, the
fractional coordinates rounded to 3 decimals, the lattice, and the
displacement rounded to 3 decimals.  Python guarantees equal tuples hash
equal, so the hash contract is stated on this key tuple. -/
def Atom.hashKey (a : Atom) : Nat × ℚ × Vec3 × Lattice × Vec3 :=
  (ELEM_TO_NUM a.element, a.magmom, round3v a.coords_fractional, a.lattice,
    round3v a.displacement)

/-- Squared Euclidean norm of a 3-vector. -/
def normSq (v : Vec3) : ℚ := v.x * v.x + v.y * v.y + v.z * v.z

/-- Componentwise difference of 3-vectors. -/
def vsub (u v : Vec3) : Vec3 := ⟨u.x - v.x, u.y - v.y, u.z - v.z⟩

/-- `Atom.coords_cartesian`: the fractional coordinates converted to real
space with the atom's lattice vectors. -/
def Atom.coords_cartesian (a : Atom) : Vec3 :=
  real_coords a.coords_fractional a.lattice.lattice_vectors

/-- `distance_fractional(atm1, atm2)`: raises when the lattices differ,
otherwise the Euclidean norm of the fractional-coordinate difference. -/
noncomputable def distance_fractional (atm1 atm2 : Atom) : Except String ℝ :=
  if atm1.lattice ≠ atm2.lattice then
    Except.error "Distance is undefined if atoms are sitting on different lattices."
  else
    Except.ok (Real.sqrt ((normSq (vsub atm1.coords_fractional atm2.coords_fractional) : ℚ) : ℝ))

/-- `distance_cartesian(atm1, atm2)`: raises when the lattices differ,
otherwise the Euclidean norm of the Cartesian-coordinate difference. -/
noncomputable def distance_cartesian (atm1 atm2 : Atom) : Except String ℝ :=
  if atm1.lattice ≠ atm2.lattice then
    Except.error "Distance is undefined if atoms are sitting on different lattices."
  else
    Except.ok (Real.sqrt ((normSq (vsub atm1.coords_cartesian atm2.coords_cartesian) : ℚ) : ℝ))

example : ElectronicStructure.setitem [] (Sum.inl Subshell.one_s) 2 = Except.ok [] := by decide
example : ElectronicStructure.init [(Sum.inl Subshell.one_s, 2)] = Except.ok [] := by decide
example : ElectronicStructure.ground_state (Sum.inr 10) = Except.ok [] := by decide
example : ElectronicStructure.str (greedyFill Subshell.all 10) = "1s²2s²2p⁶" := by decide
example : Element.init (Sum.inl "he") = Except.ok "He" := by decide
example : Element.init (Sum.inr 2) = Except.ok "He" := by decide

/-- Componentwise strict closeness below 1e-3, the hypothesis of the
spec's tolerance claim ("differs by less than 1e-3 in every
component"). -/
def strictClose3 (u v : Vec3) : Prop :=
  |u.x - v.x| < 1/1000 ∧ |u.y - v.y| < 1/1000 ∧ |u.z - v.z| < 1/1000

instance (u v : Vec3) : Decidable (strictClose3 u v) := by
  unfold strictClose3
  infer_instance

lemma allclose3_of_strictClose3 {u v : Vec3} (h : strictClose3 u v) :
    allclose3 u v := by
  obtain ⟨h1, h2, h3⟩ := h
  have p1 : (0:ℚ) ≤ (1/100000) * |v.x| := by positivity
  have p2 : (0:ℚ) ≤ (1/100000) * |v.y| := by positivity
  have p3 : (0:ℚ) ≤ (1/100000) * |v.z| := by positivity
  exact ⟨by linarith, by linarith, by linarith⟩

lemma allclose3_self (v : Vec3) : allclose3 v v := by
  have p1 : (0:ℚ) ≤ (1/100000) * |v.x| := by positivity
  have p2 : (0:ℚ) ≤ (1/100000) * |v.y| := by positivity
  have p3 : (0:ℚ) ≤ (1/100000) * |v.z| := by positivity
  refine ⟨?_, ?_, ?_⟩ <;> simp only [sub_self, abs_zero] <;> linarith

lemma normSq_vsub_comm (u v : Vec3) : normSq (vsub u v) = normSq (vsub v u) := by
  cases u
  cases v
  simp only [normSq, vsub]
  ring

lemma mulVec_I3 (v : Vec3) : mulVec I3 v = v := by
  cases v
  simp [mulVec, I3]

lemma titlecase_fixed : ∀ s ∈ chemical_symbols, titlecase s = s := by
  have h : chemical_symbols.all (fun s => titlecase s == s) = true := by decide
  intro s hs
  exact eq_of_beq (List.all_eq_true.mp h s hs)

lemma Element.validate_ok_mem {s sym : String}
    (h : Element.validate s = Except.ok sym) : sym ∈ chemical_symbols := by
  unfold Element.validate at h
  split at h
  · cases h
    assumption
  · cases h

lemma Element.init_ok_mem {e : String ⊕ Int} {sym : String}
    (h : Element.init e = Except.ok sym) : sym ∈ chemical_symbols := by
  rcases e with s | n
  · exact Element.validate_ok_mem (h : Element.validate (titlecase s) = Except.ok sym)
  · have h' : (match NUM_TO_ELEM n with
      | none => (Except.error ("KeyError " ++ toString n) : Except String String)
      | some sym2 => Element.validate (titlecase sym2)) = Except.ok sym := h
    rcases hn : NUM_TO_ELEM n with - | s2
    · rw [hn] at h'
      cases h'
    · rw [hn] at h'
      exact Element.validate_ok_mem h'

lemma Atom.init_ok_elim {gm : String → ℚ} {e : String ⊕ Int} {c : Vec3}
    {l : Option Lattice} {d : Option Vec3} {m : Option ℚ} {o : ℚ}
    {t : Option Int} {a : Atom}
    (h : Atom.init gm e c l d m o t = Except.ok a) :
    a.element ∈ chemical_symbols ∧ (a.magmom = 0 → gm a.element = 0) := by
  unfold Atom.init at h
  rcases hE : Element.init e with e' | sym
  · rw [hE] at h
    cases h
  · rw [hE] at h
    rcases m with - | mm
    · cases h
      refine ⟨Element.init_ok_mem hE, ?_⟩
      show gm sym = 0 → gm sym = 0
      exact id
    · cases h
      refine ⟨Element.init_ok_mem hE, ?_⟩
      show (if mm = 0 then gm sym else mm) = 0 → gm sym = 0
      intro hz
      rcases eq_or_ne mm 0 with h0 | h0
      · rw [if_pos h0] at hz
        exact hz
      · rw [if_neg h0] at hz
        exact absurd hz h0

lemma Atom.transform_ok (gm : String → ℚ) (a : Atom) (ms : List AffMat)
    (hmem : a.element ∈ chemical_symbols) :
    Atom.transform gm a ms = Except.ok
      { element := a.element
        coords_fractional := ms.foldl (fun v m => crystals.transform m v) a.coords_fractional
        lattice := a.lattice
        displacement := a.displacement
        magmom := if a.magmom = 0 then gm a.element else a.magmom
        occupancy := a.occupancy
        tag := none } := by
  have hE : Element.init (Sum.inl a.element) = Except.ok a.element := by
    show Element.validate (titlecase a.element) = Except.ok a.element
    rw [titlecase_fixed a.element hmem]
    unfold Element.validate
    rw [if_pos hmem]
  unfold Atom.transform Atom.init
  rw [hE]
  rfl

/-- C1: the spec's mutation contract — "setting the occupancy of a subshell
to a valid value makes that value retrievable" — fails on the code.  The
`ElectronicStructure.__setitem__` override validates but never writes the
value through, so after setting subshell 1s to the valid occupancy 2
(directly, or via the constructor) the structure is still empty and no
occupancy is retrievable for 1s.  This theorem evaluates the embedded
source at that failing input. -/
theorem C1_setitem_never_stores :
    (∃ es1 : ElectronicStructure,
      ElectronicStructure.setitem [] (Sum.inl Subshell.one_s) 2 = Except.ok es1 ∧
      ElectronicStructure.getitem es1 Subshell.one_s = none) ∧
    (∃ es2 : ElectronicStructure,
      ElectronicStructure.init [(Sum.inl Subshell.one_s, 2)] = Except.ok es2 ∧
      ElectronicStructure.getitem es2 Subshell.one_s = none) :=
  ⟨⟨[], by decide, rfl⟩, ⟨[], by decide, rfl⟩⟩

/-- C2: `ElectronicStructure.ground_state(10)` does NOT render
`"1s²2s²2p⁶"` on the code: because the constructor stores entries through
the broken `__setitem__` override, the resulting structure is empty and
renders as the empty string.  The greedy Madelung fill itself is correct —
rendering the filled association list directly gives exactly
`"1s²2s²2p⁶"`, matching the code's own docstring example, so the defect is
in storage, not in the fill algorithm. -/
theorem C2_ground_state_neon_renders_empty :
    (∃ es : ElectronicStructure,
      ElectronicStructure.ground_state (Sum.inr 10) = Except.ok es ∧
      ElectronicStructure.str es = "") ∧
    ElectronicStructure.str (greedyFill Subshell.all 10) = "1s²2s²2p⁶" ∧
    "" ≠ "1s²2s²2p⁶" :=
  ⟨⟨[], by decide, rfl⟩, by decide, by decide⟩

/-- C3 (counterexample): the claim says a negative occupancy fails with an
invalid-population error, but the code only checks the upper bound —
assigning −1 electrons to subshell 1s succeeds silently. -/
theorem C3_counterexample_negative_not_rejected :
    ElectronicStructure.setitem [] (Sum.inl Subshell.one_s) (-1) = Except.ok [] ∧
    (-1 : Int) < 0 := by
  constructor
  · decide
  · decide

/-- C3 (amended): setting the occupancy of a subshell fails with an
invalid-population error if and only if the value exceeds that subshell's
capacity (s=2, p=6, d=10, f=14); negative values are NOT rejected.  In
particular assigning 3 electrons to 1s fails. -/
theorem C3_amended_error_iff_exceeds_capacity :
    (∀ (es : ElectronicStructure) (s : Subshell) (v : Int),
      (∃ e, ElectronicStructure.setitem es (Sum.inl s) v = Except.error e) ↔
        (Subshell.maximum_electrons s : Int) < v) ∧
    (∃ e, ElectronicStructure.setitem [] (Sum.inl Subshell.one_s) 3 = Except.error e) ∧
    Subshell.maximum_electrons Subshell.one_s = 2 ∧
    Subshell.maximum_electrons Subshell.two_p = 6 ∧
    Subshell.maximum_electrons Subshell.three_d = 10 ∧
    Subshell.maximum_electrons Subshell.four_f = 14 := by
  refine ⟨?_, ⟨"There cannot be 3 electrons in subshell 1s", by decide⟩,
    by decide, by decide, by decide, by decide⟩
  intro es s v
  simp only [ElectronicStructure.setitem, Subshell.ofKey]
  split_ifs with h
  · simpa using h
  · simpa using h

/-- C4 (counterexample): two atoms that compare equal under `Atom.__eq__`
(all components within the 1e-3 tolerance, identical element, lattice and
magnetic moment) but whose hashed tuples differ, because 0.0004 and 0.0006
round to different 3-decimal values.  This falsifies "a == b implies
hash(a) == hash(b)" as stated. -/
theorem C4_counterexample_equal_atoms_hash_differently :
    Atom.eq ⟨"H", ⟨1/2500, 0, 0⟩, ⟨I3⟩, ⟨0, 0, 0⟩, 1, 1, none⟩
      ⟨"H", ⟨3/5000, 0, 0⟩, ⟨I3⟩, ⟨0, 0, 0⟩, 1, 1, none⟩ ∧
    Atom.hashKey ⟨"H", ⟨1/2500, 0, 0⟩, ⟨I3⟩, ⟨0, 0, 0⟩, 1, 1, none⟩ ≠
      Atom.hashKey ⟨"H", ⟨3/5000, 0, 0⟩, ⟨I3⟩, ⟨0, 0, 0⟩, 1, 1, none⟩ := by
  have hrhe1 : roundHalfEven (2/5) = 0 := by
    unfold roundHalfEven
    rw [show ⌊(2/5 : ℚ)⌋ = 0 by norm_num]
    norm_num
  have hrhe2 : roundHalfEven (3/5) = 1 := by
    unfold roundHalfEven
    rw [show ⌊(3/5 : ℚ)⌋ = 0 by norm_num]
    norm_num
  have hr1 : round3 ((1:ℚ)/2500) = 0 := by
    unfold round3
    rw [show ((1:ℚ)/2500 * 1000) = 2/5 by norm_num, hrhe1]
    norm_num
  have hr2 : round3 ((3:ℚ)/5000) = 1/1000 := by
    unfold round3
    rw [show ((3:ℚ)/5000 * 1000) = 3/5 by norm_num, hrhe2]
    norm_num
  constructor
  · refine ⟨rfl, rfl, ?_, rfl, allclose3_self _⟩
    refine ⟨?_, ?_, ?_⟩
    · show |(1:ℚ)/2500 - 3/5000| ≤ 1/1000 + 1/100000 * |(3:ℚ)/5000|
      rw [abs_of_nonpos (by norm_num), abs_of_nonneg (by norm_num : (0:ℚ) ≤ 3/5000)]
      norm_num
    · show |(0:ℚ) - 0| ≤ 1/1000 + 1/100000 * |(0:ℚ)|
      norm_num
    · show |(0:ℚ) - 0| ≤ 1/1000 + 1/100000 * |(0:ℚ)|
      norm_num
  · intro hk
    have h3 : round3 ((1:ℚ)/2500) = round3 ((3:ℚ)/5000) :=
      congrArg (fun p : Nat × ℚ × Vec3 × Lattice × Vec3 => p.2.2.1.x) hk
    rw [hr1, hr2] at h3
    norm_num at h3

/-- C4 (amended): atoms with equal element, equal lattice and identical
magnetic moment whose fractional-coordinate and displacement components
all differ by less than 1e-3 compare equal; and equal atoms hash equal
PROVIDED their coordinate and displacement components additionally round
to the same 3-decimal values (without that proviso the hash contract fails,
see the counterexample). -/
theorem C4_amended_tolerant_eq_and_conditional_hash :
    (∀ a b : Atom, a.element = b.element → a.lattice = b.lattice →
      a.magmom = b.magmom →
      strictClose3 a.coords_fractional b.coords_fractional →
      strictClose3 a.displacement b.displacement → Atom.eq a b) ∧
    (∀ a b : Atom, Atom.eq a b →
      round3v a.coords_fractional = round3v b.coords_fractional →
      round3v a.displacement = round3v b.displacement →
      Atom.hashKey a = Atom.hashKey b) := by
  constructor
  · intro a b he hl hm hc hd
    exact ⟨he, hm, allclose3_of_strictClose3 hc, hl, allclose3_of_strictClose3 hd⟩
  · intro a b hab hc hd
    obtain ⟨he, hm, -, hl, -⟩ := hab
    simp only [Atom.hashKey, he, hm, hl, hc, hd]

/-- C4 (witness): the amended theorem applied at concrete inputs — the
tolerance part at the counterexample pair (their single differing
coordinate components differ by 0.0002 < 1e-3), the hash part at a pair of
identical atoms. -/
theorem C4_amended_witness :
    Atom.eq ⟨"H", ⟨1/2500, 0, 0⟩, ⟨I3⟩, ⟨0, 0, 0⟩, 1, 1, none⟩
      ⟨"H", ⟨3/5000, 0, 0⟩, ⟨I3⟩, ⟨0, 0, 0⟩, 1, 1, none⟩ ∧
    Atom.hashKey ⟨"He", ⟨1/2, 0, 0⟩, ⟨I3⟩, ⟨0, 0, 0⟩, 2, 1, none⟩ =
      Atom.hashKey ⟨"He", ⟨1/2, 0, 0⟩, ⟨I3⟩, ⟨0, 0, 0⟩, 2, 1, none⟩ :=
  ⟨C4_amended_tolerant_eq_and_conditional_hash.1 _ _ rfl rfl rfl
    (by
      refine ⟨?_, ?_, ?_⟩
      · show |(1:ℚ)/2500 - 3/5000| < 1/1000
        rw [abs_of_nonpos (by norm_num)]
        norm_num
      · show |(0:ℚ) - 0| < 1/1000
        norm_num
      · show |(0:ℚ) - 0| < 1/1000
        norm_num)
    (by
      refine ⟨?_, ?_, ?_⟩ <;>
      · show |(0:ℚ) - 0| < 1/1000
        norm_num),
   C4_amended_tolerant_eq_and_conditional_hash.2 _ _
    ⟨rfl, rfl, allclose3_self _, rfl, allclose3_self _⟩ rfl rfl⟩

/-- C5: both distance functions fail with the distance-undefined error if
and only if the two atoms' lattices compare unequal, and both are
symmetric whenever the lattices are equal (the proof also shows the error
guard is symmetric). -/
theorem C5_distance_error_iff_unequal_lattices_and_symmetric :
    (∀ a b : Atom,
      (∃ e, distance_fractional a b = Except.error e) ↔ a.lattice ≠ b.lattice) ∧
    (∀ a b : Atom,
      (∃ e, distance_cartesian a b = Except.error e) ↔ a.lattice ≠ b.lattice) ∧
    (∀ a b : Atom, a.lattice = b.lattice →
      distance_fractional a b = distance_fractional b a) ∧
    (∀ a b : Atom, a.lattice = b.lattice →
      distance_cartesian a b = distance_cartesian b a) := by
  refine ⟨?_, ?_, ?_, ?_⟩
  · intro a b
    by_cases h : a.lattice = b.lattice <;> simp [distance_fractional, h]
  · intro a b
    by_cases h : a.lattice = b.lattice <;> simp [distance_cartesian, h]
  · intro a b h
    simp only [distance_fractional, h, ne_eq, not_true_eq_false, if_false,
      Except.ok.injEq]
    rw [normSq_vsub_comm]
  · intro a b h
    simp only [distance_cartesian, Atom.coords_cartesian, h, ne_eq,
      not_true_eq_false, if_false, Except.ok.injEq]
    rw [normSq_vsub_comm]

/-- C5 (witness): the symmetry parts applied to two concrete atoms on the
same (identity) lattice, and the error parts at a concrete unequal-lattice
pair via the iff. -/
theorem C5_witness :
    distance_fractional ⟨"H", ⟨0, 0, 0⟩, ⟨I3⟩, ⟨0, 0, 0⟩, 1, 1, none⟩
        ⟨"H", ⟨1, 0, 0⟩, ⟨I3⟩, ⟨0, 0, 0⟩, 1, 1, none⟩ =
      distance_fractional ⟨"H", ⟨1, 0, 0⟩, ⟨I3⟩, ⟨0, 0, 0⟩, 1, 1, none⟩
        ⟨"H", ⟨0, 0, 0⟩, ⟨I3⟩, ⟨0, 0, 0⟩, 1, 1, none⟩ ∧
    distance_cartesian ⟨"H", ⟨0, 0, 0⟩, ⟨I3⟩, ⟨0, 0, 0⟩, 1, 1, none⟩
        ⟨"H", ⟨1, 0, 0⟩, ⟨I3⟩, ⟨0, 0, 0⟩, 1, 1, none⟩ =
      distance_cartesian ⟨"H", ⟨1, 0, 0⟩, ⟨I3⟩, ⟨0, 0, 0⟩, 1, 1, none⟩
        ⟨"H", ⟨0, 0, 0⟩, ⟨I3⟩, ⟨0, 0, 0⟩, 1, 1, none⟩ ∧
    (∃ e, distance_fractional ⟨"H", ⟨0, 0, 0⟩, ⟨I3⟩, ⟨0, 0, 0⟩, 1, 1, none⟩
        ⟨"H", ⟨0, 0, 0⟩, ⟨⟨2, 0, 0, 0, 2, 0, 0, 0, 2⟩⟩, ⟨0, 0, 0⟩, 1, 1, none⟩ =
      Except.error e) :=
  ⟨C5_distance_error_iff_unequal_lattices_and_symmetric.2.2.1 _ _ rfl,
   C5_distance_error_iff_unequal_lattices_and_symmetric.2.2.2 _ _ rfl,
   (C5_distance_error_iff_unequal_lattices_and_symmetric.1 _ _).2
    (by
      intro hl
      have h12 : (1:ℚ) = 2 := congrArg (fun l : Lattice => l.lattice_vectors.m11) hl
      norm_num at h12)⟩

/-- C6: for every invertible lattice basis and every 3-vector, converting
fractional to real coordinates and back returns the original vector — in
the exact-arithmetic embedding the round trip is exact, hence in
particular within 1e-6 in every component. -/
theorem C6_frac_real_round_trip (L : Mat3) (v : Vec3) (h : det3 L ≠ 0) :
    frac_coords (real_coords v L) L = v ∧
    |(frac_coords (real_coords v L) L).x - v.x| ≤ 1/1000000 ∧
    |(frac_coords (real_coords v L) L).y - v.y| ≤ 1/1000000 ∧
    |(frac_coords (real_coords v L) L).z - v.z| ≤ 1/1000000 := by
  have heq : frac_coords (real_coords v L) L = v := by
    rcases L with ⟨l11, l12, l13, l21, l22, l23, l31, l32, l33⟩
    rcases v with ⟨vx, vy, vz⟩
    simp only [det3] at h
    simp only [frac_coords, real_coords, change_of_basis, crystals.transform,
      mul3, mulVec, inv3, det3, I3, Vec3.mk.injEq]
    refine ⟨?_, ?_, ?_⟩ <;> field_simp <;> ring
  refine ⟨heq, ?_, ?_, ?_⟩ <;> rw [heq] <;> simp only [sub_self, abs_zero] <;> norm_num

/-- C6 (witness): the round trip evaluated on the concrete invertible
basis ⟨2,0,0;0,3,0;0,0,4⟩ and the vector (1,2,3). -/
theorem C6_witness :
    det3 ⟨2, 0, 0, 0, 3, 0, 0, 0, 4⟩ ≠ 0 ∧
    (frac_coords (real_coords ⟨1, 2, 3⟩ ⟨2, 0, 0, 0, 3, 0, 0, 0, 4⟩)
        ⟨2, 0, 0, 0, 3, 0, 0, 0, 4⟩ = ⟨1, 2, 3⟩ ∧
      |(frac_coords (real_coords ⟨1, 2, 3⟩ ⟨2, 0, 0, 0, 3, 0, 0, 0, 4⟩)
          ⟨2, 0, 0, 0, 3, 0, 0, 0, 4⟩).x - (1:ℚ)| ≤ 1/1000000 ∧
      |(frac_coords (real_coords ⟨1, 2, 3⟩ ⟨2, 0, 0, 0, 3, 0, 0, 0, 4⟩)
          ⟨2, 0, 0, 0, 3, 0, 0, 0, 4⟩).y - (2:ℚ)| ≤ 1/1000000 ∧
      |(frac_coords (real_coords ⟨1, 2, 3⟩ ⟨2, 0, 0, 0, 3, 0, 0, 0, 4⟩)
          ⟨2, 0, 0, 0, 3, 0, 0, 0, 4⟩).z - (3:ℚ)| ≤ 1/1000000) :=
  ⟨by norm_num [det3],
   C6_frac_real_round_trip ⟨2, 0, 0, 0, 3, 0, 0, 0, 4⟩ ⟨1, 2, 3⟩ (by norm_num [det3])⟩

/-- C7: `Atom.transform` never mutates the receiver (the embedding is pure,
so the receiver's fields are untouched by construction) and returns a new
atom carrying over element, lattice, displacement, magnetic moment and
occupancy, with the tag dropped (absent) and the coordinates given by the
folded transforms. -/
theorem C7_transform_new_atom_carries_fields (gm : String → ℚ)
    (e : String ⊕ Int) (c : Vec3) (l : Option Lattice) (d : Option Vec3)
    (m : Option ℚ) (o : ℚ) (t : Option Int) (a : Atom) (ms : List AffMat)
    (h : Atom.init gm e c l d m o t = Except.ok a) :
    ∃ a' : Atom, Atom.transform gm a ms = Except.ok a' ∧
      a'.element = a.element ∧ a'.lattice = a.lattice ∧
      a'.displacement = a.displacement ∧ a'.magmom = a.magmom ∧
      a'.occupancy = a.occupancy ∧ a'.tag = none ∧
      a'.coords_fractional =
        ms.foldl (fun v mm => crystals.transform mm v) a.coords_fractional := by
  obtain ⟨hmem, hmag⟩ := Atom.init_ok_elim h
  refine ⟨_, Atom.transform_ok gm a ms hmem, rfl, rfl, rfl, ?_, rfl, rfl, rfl⟩
  show (if a.magmom = 0 then gm a.element else a.magmom) = a.magmom
  rcases eq_or_ne a.magmom 0 with h0 | h0
  · rw [if_pos h0, hmag h0, h0]
  · rw [if_neg h0]

/-- C7 (witness): the theorem applied to a concrete constructed hydrogen
atom and a singleton transform list. -/
theorem C7_witness :
    ∃ a' : Atom,
      Atom.transform (fun _ => (2:ℚ))
        ⟨"H", ⟨0, 0, 0⟩, ⟨I3⟩, ⟨0, 0, 0⟩, 2, 1, none⟩ [AffMat.lin I3] = Except.ok a' ∧
      a'.element = "H" ∧ a'.lattice = ⟨I3⟩ ∧ a'.displacement = ⟨0, 0, 0⟩ ∧
      a'.magmom = 2 ∧ a'.occupancy = 1 ∧ a'.tag = none ∧
      a'.coords_fractional =
        [AffMat.lin I3].foldl (fun v mm => crystals.transform mm v) ⟨0, 0, 0⟩ :=
  C7_transform_new_atom_carries_fields (fun _ => (2:ℚ)) (Sum.inl "H") ⟨0, 0, 0⟩
    none none none 1 none ⟨"H", ⟨0, 0, 0⟩, ⟨I3⟩, ⟨0, 0, 0⟩, 2, 1, none⟩
    [AffMat.lin I3] rfl

/-- C8: transforming a constructed atom by the 3×3 identity matrix yields
an atom that compares equal (under `Atom.__eq__`) to the original. -/
theorem C8_identity_transform_noop (gm : String → ℚ)
    (e : String ⊕ Int) (c : Vec3) (l : Option Lattice) (d : Option Vec3)
    (m : Option ℚ) (o : ℚ) (t : Option Int) (a : Atom)
    (h : Atom.init gm e c l d m o t = Except.ok a) :
    ∃ a' : Atom, Atom.transform gm a [AffMat.lin I3] = Except.ok a' ∧
      Atom.eq a' a := by
  obtain ⟨hmem, hmag⟩ := Atom.init_ok_elim h
  refine ⟨_, Atom.transform_ok gm a [AffMat.lin I3] hmem, ?_, ?_, ?_, rfl, ?_⟩
  · rfl
  · show (if a.magmom = 0 then gm a.element else a.magmom) = a.magmom
    rcases eq_or_ne a.magmom 0 with h0 | h0
    · rw [if_pos h0, hmag h0, h0]
    · rw [if_neg h0]
  · show allclose3 ([AffMat.lin I3].foldl (fun v mm => crystals.transform mm v)
      a.coords_fractional) a.coords_fractional
    have hc : [AffMat.lin I3].foldl (fun v mm => crystals.transform mm v)
        a.coords_fractional = a.coords_fractional := by
      simp [crystals.transform, mulVec_I3]
    rw [hc]
    exact allclose3_self _
  · exact allclose3_self _

/-- C8 (witness): the identity-transform theorem applied to a concrete
constructed hydrogen atom. -/
theorem C8_witness :
    ∃ a' : Atom,
      Atom.transform (fun _ => (2:ℚ))
        ⟨"H", ⟨1/2, 1/3, 1/4⟩, ⟨I3⟩, ⟨0, 0, 0⟩, 2, 1, none⟩ [AffMat.lin I3] = Except.ok a' ∧
      Atom.eq a' ⟨"H", ⟨1/2, 1/3, 1/4⟩, ⟨I3⟩, ⟨0, 0, 0⟩, 2, 1, none⟩ :=
  C8_identity_transform_noop (fun _ => (2:ℚ)) (Sum.inl "H") ⟨1/2, 1/3, 1/4⟩
    none none none 1 none ⟨"H", ⟨1/2, 1/3, 1/4⟩, ⟨I3⟩, ⟨0, 0, 0⟩, 2, 1, none⟩ rfl

/-- C9: `Element` construction normalizes case before validating, so
"he", "He" and atomic number 2 all construct the same stored symbol "He"
(hence all three are pairwise equal, `Element.__eq__` being symbol
equality); and a symbol whose normalization is not in the known-valid
symbol set fails with an invalid-element error. -/
theorem C9_element_normalization_and_validation :
    Element.init (Sum.inl "he") = Except.ok "He" ∧
    Element.init (Sum.inl "He") = Except.ok "He" ∧
    Element.init (Sum.inr 2) = Except.ok "He" ∧
    (∀ s : String, titlecase s ∉ chemical_symbols →
      ∃ e, Element.init (Sum.inl s) = Except.error e) := by
  refine ⟨by decide, by decide, by decide, ?_⟩
  intro s hs
  refine ⟨"Element " ++ titlecase s ++ " is not valid.", ?_⟩
  show Element.validate (titlecase s) = _
  unfold Element.validate
  rw [if_neg hs]

/-- C9 (witness): the invalid-symbol part applied to the concrete unknown
symbol "Xx". -/
theorem C9_witness :
    titlecase "Xx" ∉ chemical_symbols ∧
    (∃ e, Element.init (Sum.inl "Xx") = Except.error e) :=
  ⟨by decide, C9_element_normalization_and_validation.2.2.2 "Xx" (by decide)⟩

/-- C10: an explicitly supplied magnetic moment of 0.0 is falsy in Python,
so `magmom or self.magnetic_moment_ground` stores the element's
ground-state magnetic moment instead; and `transform`, which re-constructs
through the same constructor, performs the same substitution on an atom
whose stored moment is 0.0. -/
theorem C10_falsy_magmom_replaced_by_ground (gm : String → ℚ) :
    (∀ (e : String ⊕ Int) (c : Vec3) (l : Option Lattice) (d : Option Vec3)
        (o : ℚ) (t : Option Int) (a : Atom),
      Atom.init gm e c l d (some 0) o t = Except.ok a →
        a.magmom = gm a.element) ∧
    (∀ (a : Atom) (ms : List AffMat), a.element ∈ chemical_symbols →
      a.magmom = 0 →
      ∃ a' : Atom, Atom.transform gm a ms = Except.ok a' ∧
        a'.magmom = gm a.element) := by
  constructor
  · intro e c l d o t a h
    unfold Atom.init at h
    rcases hE : Element.init e with e' | sym
    · rw [hE] at h
      cases h
    · rw [hE] at h
      cases h
      show (if (0:ℚ) = 0 then gm sym else 0) = gm sym
      rw [if_pos rfl]
  · intro a ms hmem h0
    refine ⟨_, Atom.transform_ok gm a ms hmem, ?_⟩
    show (if a.magmom = 0 then gm a.element else a.magmom) = gm a.element
    rw [if_pos h0]

/-- C10 (witness): both parts applied at concrete inputs with a
ground-state moment table giving hydrogen the nonzero moment 5: supplying
magmom 0.0 stores 5, and transforming an atom whose moment is 0 yields an
atom with moment 5. -/
theorem C10_witness :
    Atom.magmom ⟨"H", ⟨0, 0, 0⟩, ⟨I3⟩, ⟨0, 0, 0⟩, 5, 1, none⟩ =
      (fun _ => (5:ℚ)) "H" ∧
    (∃ a' : Atom,
      Atom.transform (fun _ => (5:ℚ))
        ⟨"H", ⟨0, 0, 0⟩, ⟨I3⟩, ⟨0, 0, 0⟩, 0, 1, none⟩ [] = Except.ok a' ∧
      a'.magmom = (fun _ => (5:ℚ)) "H") :=
  ⟨(C10_falsy_magmom_replaced_by_ground (fun _ => (5:ℚ))).1 (Sum.inl "H")
      ⟨0, 0, 0⟩ none none 1 none ⟨"H", ⟨0, 0, 0⟩, ⟨I3⟩, ⟨0, 0, 0⟩, 5, 1, none⟩ rfl,
   (C10_falsy_magmom_replaced_by_ground (fun _ => (5:ℚ))).2
      ⟨"H", ⟨0, 0, 0⟩, ⟨I3⟩, ⟨0, 0, 0⟩, 0, 1, none⟩ [] (by decide) rfl⟩

end crystals
